import Mathlib

/-!
Verification of the RecipeProjectService RAG orchestration layer
(`src/app/main.py`, `src/app/client.py`, `src/app/prompt.py`,
`src/app/schemas.py`, `src/app/config.py`).

Python strings are modelled as Lean `String` (a wrapper around `List Char`);
the `str.split` / `str.rsplit` / `str.strip` operations used by the query
rewriter are modelled over `List Char`.  Python's truthiness-based `or`
defaulting is modelled by explicit `pyOr*` helpers.  Machine floats are
modelled by `ℚ` (JSON numbers are decimal, and no claim depends on binary
rounding); `float("nan")`/`float("inf")` string parses are out of scope of
the model and parse to `none`.
-/

deriving instance DecidableEq for Except

/-- Python whitespace test used by `str.strip()` (ASCII subset). -/
def isPySpace (c : Char) : Bool :=
  c == ' ' || c == '\t' || c == '\n' || c == '\r' || c == Char.ofNat 11 || c == Char.ofNat 12

/-- `str.strip()` on a character list: drop whitespace from both ends. -/
def pyStripL (s : List Char) : List Char :=
  ((s.dropWhile isPySpace).reverse.dropWhile isPySpace).reverse

/-- `str.strip()` on a string. -/
def pyStrip (s : String) : String :=
  ⟨pyStripL s.data⟩

/-- Python `a or b` for strings: `a` is falsy iff it is empty. -/
def pyOrStr (a b : String) : String :=
  if a = "" then b else a

/-- Python `a or b` where `a` is `None` or a string: falsy iff `None` or empty. -/
def pyOrOptStr (a : Option String) (b : String) : String :=
  match a with
  | none => b
  | some s => if s = "" then b else s

/-- Python `a or b` where `a` is `None` or an int (modelled as `Nat`):
falsy iff `None` or `0`. -/
def pyOrNat (a : Option Nat) (b : Nat) : Nat :=
  match a with
  | none => b
  | some v => if v = 0 then b else v

/-- Python `a or b` where `a` is `None` or a float (modelled as `ℚ`):
falsy iff `None` or `0.0`. -/
def pyOrFloat (a : Option ℚ) (b : Option ℚ) : Option ℚ :=
  match a with
  | none => b
  | some v => if v = 0 then b else some v

/-! ### Python `str.split` / `str.rsplit` over `List Char`

`content.split(sep)` scans left to right, cutting at each occurrence of
`sep`; `content.rsplit(sep, 1)[0]` is the text before the rightmost
occurrence of `sep` (the whole string when there is none).  The scan is
implemented with a fuel argument (the string length suffices) so that the
functions compute by kernel reduction. -/

/-- `sep` occurs in `s` at position `i`. -/
def occursAt (sep s : List Char) (i : Nat) : Prop :=
  sep <+: s.drop i

instance (sep s : List Char) (i : Nat) : Decidable (occursAt sep s i) :=
  inferInstanceAs (Decidable (sep <+: s.drop i))

/-- Index of the rightmost occurrence of `sep` in `s`, if any. -/
def lastIdx? (sep : List Char) : List Char → Option Nat
  | [] => if sep.isEmpty then some 0 else none
  | c :: rest =>
    match lastIdx? sep rest with
    | some j => some (j + 1)
    | none => if sep.isPrefixOf (c :: rest) then some 0 else none

/-- Index of the leftmost occurrence of `sep` in `s`, if any. -/
def firstIdx? (sep : List Char) : List Char → Option Nat
  | [] => if sep.isEmpty then some 0 else none
  | c :: rest =>
    if sep.isPrefixOf (c :: rest) then some 0
    else (firstIdx? sep rest).map (· + 1)

/-- Left-to-right scan of Python `str.split(sep)`: `acc` holds the current
piece (reversed); at each occurrence of `sep` the piece is emitted and the
scan resumes after the separator. -/
def pySplitOnAux (sep : List Char) : Nat → List Char → List Char → List (List Char)
  | 0, s, acc => [acc.reverse ++ s]
  | _ + 1, [], acc => [acc.reverse]
  | fuel + 1, c :: rest, acc =>
    if sep.isPrefixOf (c :: rest) then
      acc.reverse :: pySplitOnAux sep fuel (List.drop (sep.length - 1) rest) []
    else
      pySplitOnAux sep fuel rest (c :: acc)

/-- Python `s.split(sep)` for a non-empty separator. -/
def pySplitOn (sep s : List Char) : List (List Char) :=
  pySplitOnAux sep s.length s []

/-- Python `s.rsplit(sep, 1)[0]`: the text before the rightmost occurrence
of `sep`, or the whole string when `sep` does not occur. -/
def pyRsplitOneHead (sep s : List Char) : List Char :=
  match lastIdx? sep s with
  | none => s
  | some j => s.take j

/-- The rewriter's start marker `<rewrite>`. -/
def startMarker : List Char := "<rewrite>".data

/-- The rewriter's end marker `</rewrite>`. -/
def endMarker : List Char := "</rewrite>".data

/-- `client.py` line 92:
`content.split("<rewrite>")[-1].rsplit("</rewrite>", 1)[0].strip()`. -/
def extractRewritten (content : List Char) : List Char :=
  pyStripL (pyRsplitOneHead endMarker ((pySplitOn startMarker content).getLastD []))

/-- The suffix of `s` after the rightmost occurrence of `sep` (the whole
string when `sep` does not occur).  Specification-side companion of
`(pySplitOn sep s).getLastD []`. -/
def afterLastMarker (sep s : List Char) : List Char :=
  match lastIdx? sep s with
  | none => s
  | some j => s.drop (j + sep.length)

/-- `sep` has no border: no proper non-empty prefix of `sep` is also a
suffix.  Both rewrite markers are borderless, which makes the left-to-right
scan of `split` agree with rightmost-occurrence reasoning. -/
def Borderless (sep : List Char) : Prop :=
  ∀ d < sep.length, 0 < d → sep.take (sep.length - d) ≠ sep.drop d

instance (sep : List Char) : Decidable (Borderless sep) :=
  inferInstanceAs (Decidable (∀ d < sep.length, 0 < d → _ ≠ _))

/-! ### JSON scalar values and `_maybe_float` / `_maybe_str` (`client.py` 228-240)

Retrieval items carry loosely-typed JSON scalars.  Container values (arrays,
objects) are not modelled: `float()` on them raises `TypeError`, which
`_maybe_float` maps to `None`, and no claim inspects them. -/

inductive JsonVal where
  | null
  | num (q : ℚ)
  | str (s : String)
  | boolv (b : Bool)
deriving DecidableEq

/-- Digits to a natural number, most significant first. -/
def digitsToNat (ds : List Char) : Nat :=
  ds.foldl (fun n c => n * 10 + (c.toNat - 48)) 0

/-- Exponent part of a Python float literal: optional sign then digits. -/
def pyParseExp? (r : List Char) : Option ℚ :=
  let p : Bool × List Char :=
    match r with
    | '+' :: t => (false, t)
    | '-' :: t => (true, t)
    | t => (false, t)
  if p.2 ≠ [] ∧ p.2.all Char.isDigit then
    some (if p.1 then ((10 : ℚ) ^ digitsToNat p.2)⁻¹ else (10 : ℚ) ^ digitsToNat p.2)
  else none

/-- Python `float(str)` on decimal literals (sign, digits, optional point,
optional exponent); `inf`/`nan`/underscore forms are outside the model and
return `none`. -/
def pyParseFloat? (s : String) : Option ℚ :=
  let t := pyStripL s.data
  let p : Bool × List Char :=
    match t with
    | '+' :: r => (false, r)
    | '-' :: r => (true, r)
    | r => (false, r)
  let intPart := p.2.takeWhile Char.isDigit
  let rest1 := p.2.dropWhile Char.isDigit
  let sgn : ℚ := if p.1 then -1 else 1
  match rest1 with
  | [] => if intPart = [] then none else some (sgn * digitsToNat intPart)
  | '.' :: r2 =>
    let fracPart := r2.takeWhile Char.isDigit
    let rest2 := r2.dropWhile Char.isDigit
    if intPart = [] ∧ fracPart = [] then none
    else
      let base : ℚ := (digitsToNat intPart : ℚ) + (digitsToNat fracPart : ℚ) / (10 : ℚ) ^ fracPart.length
      match rest2 with
      | [] => some (sgn * base)
      | c :: r3 =>
        if c = 'e' ∨ c = 'E' then (pyParseExp? r3).map (fun ex => sgn * base * ex) else none
  | c :: r3 =>
    if (c = 'e' ∨ c = 'E') ∧ intPart ≠ [] then
      (pyParseExp? r3).map (fun ex => sgn * (digitsToNat intPart : ℚ) * ex)
    else none

/-- `client.py` `_maybe_float`: `None` for null/unparseable, else the parsed
float.  `float(True) = 1.0`, `float(False) = 0.0`. -/
def maybeFloat (v : JsonVal) : Option ℚ :=
  match v with
  | .null => none
  | .num q => some q
  | .boolv b => some (if b then 1 else 0)
  | .str s => pyParseFloat? s

/-- `client.py` `_maybe_str`: `None` for null, else `str(value)` (numeric
rendering approximated by the rational printer; no claim inspects it). -/
def maybeStr (v : JsonVal) : Option String :=
  match v with
  | .null => none
  | .str s => some s
  | .num q => some (toString q)
  | .boolv b => some (if b then "True" else "False")

/-! ### Data model (`schemas.py`, `config.py`) -/

/-- One upstream retrieval item (flexible JSON fields; `none`/`null` stands
for an absent key, matching `item.get(...)`).  `text`/`name` are modelled as
optional strings since the code immediately calls `.strip()` on them. -/
structure Item where
  id : JsonVal := .null
  text : Option String := none
  name : Option String := none
  combined_score : JsonVal := .null
  rerank_score : JsonVal := .null
  score : JsonVal := .null
  chunk_id : JsonVal := .null
  type : JsonVal := .null
  origin_id : JsonVal := .null
  source : JsonVal := .null
  source_text : JsonVal := .null
deriving DecidableEq

/-- `schemas.RetrievedDocument`. -/
structure RetrievedDocument where
  id : Option String
  title : Option String
  content : String
  score : Option ℚ
  chunk_id : Option String
  chunk_type : Option String
  origin_id : Option String
  source : JsonVal
  source_text : JsonVal
deriving DecidableEq

/-- The retrieval service reply: either a bare array or an object with an
optional `results` field (`client.py` 198-202). -/
inductive RetrievalData where
  | arr (items : List Item)
  | obj (results : Option (List Item))
deriving DecidableEq

/-- `client.py` 199-202: bare list, else `data.get("results") or []`. -/
def docsPayloadOf : RetrievalData → List Item
  | .arr items => items
  | .obj results => results.getD []

/-- `config.ModelConfig`. -/
structure ModelConfig where
  model_name : String
  temperature : ℚ
  top_p : ℚ
  max_tokens : Nat
  stream : Bool
deriving DecidableEq

/-- `config.RetrievalConfig`. -/
structure RetrievalConfig where
  url : String
  timeout : ℚ
  top_k : Nat
  use_rerank : Bool
  rerank_mode : String
  rerank_top_k : Option Nat
deriving DecidableEq

/-- `config.RewriterConfig`. -/
structure RewriterConfig where
  enabled : Bool
  model_name : String
  temperature : ℚ
  top_p : ℚ
  max_tokens : Nat
deriving DecidableEq

/-- `config.Settings`. -/
structure Settings where
  api_key : String
  base_url : String
  timeout : ℚ
  model : ModelConfig
  retrieval : RetrievalConfig
  rewriter : RewriterConfig
deriving DecidableEq

/-- The defaults from `config.py`. -/
def defaultSettings : Settings :=
  { api_key := "sk-wjrtizmtakyahakiovtuqynxrvzaafpcbrxddfdlutaglfhj"
    base_url := "https://api.siliconflow.cn/v1/chat/completions"
    timeout := 30
    model := { model_name := "Qwen/Qwen2.5-7B-Instruct", temperature := 7/10, top_p := 9/10,
               max_tokens := 1024, stream := false }
    retrieval := { url := "http://localhost:8000/search/docs", timeout := 15, top_k := 5,
                   use_rerank := true, rerank_mode := "cross", rerank_top_k := none }
    rewriter := { enabled := true, model_name := "Qwen/Qwen2.5-7B-Instruct", temperature := 1/10,
                  top_p := 9/10, max_tokens := 128 } }

/-- `schemas.ChatRequest` (validation: `query` non-empty, the `*top_k`
fields in `1..50` — carried as hypotheses where relevant). -/
structure ChatRequest where
  query : String
  top_k : Option Nat := none
  stream : Bool := false
  use_rerank : Option Bool := none
  rerank_mode : Option String := none
  rerank_top_k : Option Nat := none
deriving DecidableEq

/-- Upstream completion choice message (`choices[i].message`). -/
structure UpMessage where
  content : Option String := none
deriving DecidableEq

/-- Upstream completion choice. -/
structure UpChoice where
  message : Option UpMessage := none
deriving DecidableEq

/-- `schemas.Usage` (pass-through). -/
structure UsageData where
  prompt_tokens : Option Int := none
  completion_tokens : Option Int := none
  total_tokens : Option Int := none
deriving DecidableEq

/-- A well-formed (2xx, JSON) completion-service response body. -/
structure CompletionData where
  choices : List UpChoice := []
  usage : Option UsageData := none
  model : Option String := none
deriving DecidableEq

/-- A chat message `{role, content}`. -/
structure ChatMessage where
  role : String
  content : String
deriving DecidableEq

/-- `schemas.ChatResponse`. -/
structure ChatResponse where
  answer : String
  model : String
  usage : Option UsageData
  raw_response : Option CompletionData
  documents : List RetrievedDocument
deriving DecidableEq

/-- Errors surfaced by an upstream call: `RuntimeError` (configuration),
`httpx.HTTPStatusError` (non-2xx, carrying `response.text` and
`response.reason_phrase`) and other `httpx.HTTPError` (transport). -/
inductive UpErr where
  | runtimeErr (msg : String)
  | statusErr (code : Nat) (text : String) (reason : String)
  | transportErr
deriving DecidableEq

/-- A `fastapi.HTTPException` as surfaced to the client. -/
structure HttpError where
  code : Nat
  detail : String
deriving DecidableEq

/-- Message of `require_api_key` (`config.py` 85-87). -/
def apiKeyMissingMsg : String :=
  "SILICONFLOW_API_KEY is not set. Export it before starting the service."

/-- Message of the retrieval-URL configuration check (`client.py` 156). -/
def ragUrlMissingMsg : String := "RAG_API_URL is not configured"

/-! ### Document normalizer (`client.py` 204-225) -/

/-- Normalization of one retrieval item; `none` when the content is empty
after trimming (the item is dropped). -/
def normalizeItem (item : Item) : Option RetrievedDocument :=
  let content := pyStrip (pyOrOptStr item.text (pyOrOptStr item.name ""))
  if content = "" then none
  else some
    { id := maybeStr item.id
      title := item.name
      content := content
      score := pyOrFloat (maybeFloat item.combined_score)
        (pyOrFloat (maybeFloat item.rerank_score) (maybeFloat item.score))
      chunk_id := maybeStr item.chunk_id
      chunk_type := maybeStr item.type
      origin_id := maybeStr item.origin_id
      source := item.source
      source_text :=
        match item.source_text with
        | .str s => .str (pyStrip s)
        | v => v }

/-- The full document list produced from a retrieval reply. -/
def normalizeResponse (data : RetrievalData) : List RetrievedDocument :=
  (docsPayloadOf data).filterMap normalizeItem

/-! ### Prompt assembly (`prompt.py`) -/

/-- `prompt.SYSTEM_PROMPT`. -/
def systemPrompt : String :=
  "你是一名温暖又专业的烹饪顾问，既要保持亲切、口语化的语气，也要严谨引用检索文档中的事实。\n若文档没有提供足够信息或与问题无关，必须坦诚回复“我不知道”，禁止根据无关检索文档编造内容。\n在回答中适当加入烹饪小贴士或温馨提示，帮助用户更好地理解和应用烹饪知识。"

/-- `prompt.USER_PROMPT_TEMPLATE` up to the query interpolation point. -/
def userPromptPrefix : String :=
  "请仅依据下方检索文档回答用户问题，不要添加额外臆测。\n\n【问题】\n"

/-- `prompt.USER_PROMPT_TEMPLATE` between query and context. -/
def userPromptMid : String := "\n\n【检索文档】\n"

/-- `prompt.USER_PROMPT_TEMPLATE` after the context interpolation point. -/
def userPromptSuffix : String :=
  "\n\n回答要求：\n1. 先理解用户需求，再用自然、友好的语气组织回答，适当加入烹饪小贴士或温馨提示。\n2. 整合多个文档的关键信息后再作答，必要时概括，不照搬原文。\n3. 引用文档时在句末附上（Doc-编号或标题），保持中文回答。\n4. 如果文档列表为空、内容不足或与问题无关，请直接回复“我不知道”。\n5. 如果文档中没有提及用户问的具体内容，避免编造，直接说明“文档中未提及该内容”。\n\n强调：如果提供的文档中没有严格出现答案内容，禁止凭空编造信息，请务必回复“我不知道”。\n"

/-- Placeholder context when no documents are available. -/
def emptyContextPlaceholder : String := "（未提供检索文档，请回复“我不知道”。）"

/-- `f"{score:.3f}"`: fixed three-decimal rendering on the rational model
(round half to even, as Python's float formatting does on the exact value). -/
def formatScore3 (q : ℚ) : String :=
  let scaled : ℚ := q * 1000
  let fl : ℤ := Rat.floor scaled
  let frac : ℚ := scaled - (fl : ℚ)
  let n : ℤ :=
    if frac < 1/2 then fl
    else if 1/2 < frac then fl + 1
    else if fl % 2 = 0 then fl else fl + 1
  let m : Nat := n.natAbs
  let ip := m / 1000
  let dp := m % 1000
  let dpStr := toString dp
  let padded := String.mk (List.replicate (3 - dpStr.length) '0') ++ dpStr
  (if n < 0 then "-" else "") ++ toString ip ++ "." ++ padded

/-- `prompt._format_document`. -/
def formatDocument (doc : RetrievedDocument) (rank : Nat) : String :=
  let label := pyOrOptStr doc.title (pyOrOptStr doc.id ("Doc-" ++ toString rank))
  let header :=
    match doc.score with
    | some q => " (score=" ++ formatScore3 q ++ ")"
    | none => ""
  let snippet := (pyStrip doc.content).map (fun c => if c = '\n' then ' ' else c)
  "[" ++ toString rank ++ "] " ++ label ++ header ++ "\n" ++ snippet

/-- `prompt.build_messages`. -/
def buildMessages (query : String) (documents : List RetrievedDocument) : List ChatMessage :=
  let context :=
    String.intercalate "\n\n" (documents.enum.map (fun p => formatDocument p.2 (p.1 + 1)))
  let context := if context = "" then emptyContextPlaceholder else context
  [ { role := "system", content := systemPrompt },
    { role := "user", content := userPromptPrefix ++ pyStrip query ++ userPromptMid ++ context ++ userPromptSuffix } ]

/-! ### Query rewriter (`client.py` 50-94)

The upstream HTTP exchange is an oracle argument `http`: `.ok data` for a
2xx JSON reply, `.error e` for `raise_for_status`/transport/credential
failures.  The returned `Bool` records whether the completion service was
contacted (the POST is issued whenever rewriting is enabled and the API key
check passes). -/

def rewriteQueryRun (s : Settings) (query : String) (http : Except UpErr CompletionData) :
    Except UpErr String × Bool :=
  if ¬ s.rewriter.enabled then (.ok query, false)
  else if s.api_key = "" then (.error (.runtimeErr apiKeyMissingMsg), false)
  else
    match http with
    | .error e => (.error e, true)
    | .ok data =>
      if data.choices = [] then (.ok query, true)
      else
        let message := ((data.choices.headD {}).message).getD {}
        let content := pyStrip (message.content.getD "")
        if content = "" then (.ok query, true)
        else (.ok ⟨extractRewritten content.data⟩, true)

/-! ### Retrieval gateway (`client.py` 147-202) -/

/-- The outgoing retrieval request body; `rerank_top_k = none` means the key
is absent from the payload. -/
structure RetrievalPayload where
  query : String
  k : Nat
  use_rerank : Bool
  rerank_mode : Option String
  rerank_top_k : Option Nat
deriving DecidableEq

/-- `client.py` 157-180: effective parameter computation and payload
construction of `RetrievalClient.retrieve`. -/
def retrievePayload (rc : RetrievalConfig) (query : String) (top_k : Option Nat)
    (use_rerank : Option Bool) (rerank_mode : Option String) (rerank_top_k : Option Nat) :
    RetrievalPayload :=
  let effectiveTopK := pyOrNat top_k rc.top_k
  let effectiveUseRerank := use_rerank.getD rc.use_rerank
  let m0 := pyOrOptStr rerank_mode rc.rerank_mode
  let effectiveRerankMode := if m0 = "" then none else some m0.toLower
  let effectiveRerankTopK := pyOrNat rerank_top_k (pyOrNat rc.rerank_top_k effectiveTopK)
  { query := query
    k := effectiveTopK
    use_rerank := effectiveUseRerank
    rerank_mode := effectiveRerankMode
    rerank_top_k :=
      if effectiveUseRerank ∧ effectiveRerankTopK ≠ 0 then some effectiveRerankTopK else none }

/-! ### Chat endpoint (`main.py`) -/

/-- `main._extract_answer`. -/
def extractAnswer (raw : CompletionData) : Except HttpError String :=
  if raw.choices = [] then .error ⟨502, "SiliconFlow returned no choices"⟩
  else
    let message := ((raw.choices.headD {}).message).getD {}
    let content := pyStrip (message.content.getD "")
    if content = "" then .error ⟨502, "Choice contained no message content"⟩
    else .ok content

/-- `main._extract_usage` (the falsy-empty-dict case collapses onto `none`). -/
def extractUsage (raw : CompletionData) : Option UsageData := raw.usage

/-- `main._trim_documents`. -/
def trimDocuments (s : Settings) (documents : List RetrievedDocument) (limit : Option Nat) :
    List RetrievedDocument :=
  documents.take (pyOrNat limit s.retrieval.top_k)

/-- What the `/chat` handler produced for the client. -/
inductive ChatOutcome where
  | ok (resp : ChatResponse)
  | httpError (e : HttpError)
  | streaming (messages : List ChatMessage) (docs : List RetrievedDocument)
deriving DecidableEq

/-- Observable effects and result of one `/chat` request:
which upstreams were contacted, what was passed between the stages,
and the outcome. -/
structure ChatTrace where
  rewriteNetworkCalled : Bool
  retrievalQuery : String
  retrievalPayload : Option RetrievalPayload
  docsPassedToBuild : Option (List RetrievedDocument)
  messagesBuilt : Option (List ChatMessage)
  generationCalled : Bool
  outcome : ChatOutcome
deriving DecidableEq

/-- The `/chat` handler (`main.py` 60-134) over three upstream oracles:
the rewrite completion call, the retrieval call and the generation call.
Each oracle is the outcome the corresponding HTTP exchange would have if
reached; the trace records whether it was reached. -/
def chatHandler (s : Settings) (req : ChatRequest)
    (rewriteHttp : Except UpErr CompletionData)
    (retrievalHttp : Except UpErr RetrievalData)
    (generationHttp : Except UpErr CompletionData) : ChatTrace :=
  let rw := rewriteQueryRun s req.query rewriteHttp
  let rewrittenQuery :=
    if s.rewriter.enabled then
      match rw.1 with
      | .ok r => r
      | .error _ => req.query
    else req.query
  let rewriteCalled := if s.rewriter.enabled then rw.2 else false
  if s.retrieval.url = "" then
    { rewriteNetworkCalled := rewriteCalled
      retrievalQuery := rewrittenQuery
      retrievalPayload := none
      docsPassedToBuild := none
      messagesBuilt := none
      generationCalled := false
      outcome := .httpError ⟨500, ragUrlMissingMsg⟩ }
  else
    let payload := retrievePayload s.retrieval rewrittenQuery req.top_k req.use_rerank
      req.rerank_mode req.rerank_top_k
    match retrievalHttp with
    | .error (.runtimeErr m) =>
      { rewriteNetworkCalled := rewriteCalled, retrievalQuery := rewrittenQuery
        retrievalPayload := some payload, docsPassedToBuild := none, messagesBuilt := none
        generationCalled := false, outcome := .httpError ⟨500, m⟩ }
    | .error (.statusErr code text reason) =>
      { rewriteNetworkCalled := rewriteCalled, retrievalQuery := rewrittenQuery
        retrievalPayload := some payload, docsPassedToBuild := none, messagesBuilt := none
        generationCalled := false
        outcome := .httpError ⟨code, "Retriever error: " ++ pyOrStr text reason⟩ }
    | .error .transportErr =>
      { rewriteNetworkCalled := rewriteCalled, retrievalQuery := rewrittenQuery
        retrievalPayload := some payload, docsPassedToBuild := none, messagesBuilt := none
        generationCalled := false, outcome := .httpError ⟨502, "Retriever request failed"⟩ }
    | .ok data =>
      let trimmedDocs := trimDocuments s (normalizeResponse data) none
      let messages := buildMessages req.query trimmedDocs
      if req.stream then
        { rewriteNetworkCalled := rewriteCalled, retrievalQuery := rewrittenQuery
          retrievalPayload := some payload, docsPassedToBuild := some trimmedDocs
          messagesBuilt := some messages, generationCalled := false
          outcome := .streaming messages trimmedDocs }
      else if s.api_key = "" then
        { rewriteNetworkCalled := rewriteCalled, retrievalQuery := rewrittenQuery
          retrievalPayload := some payload, docsPassedToBuild := some trimmedDocs
          messagesBuilt := some messages, generationCalled := false
          outcome := .httpError ⟨500, apiKeyMissingMsg⟩ }
      else
        match generationHttp with
        | .error (.runtimeErr m) =>
          { rewriteNetworkCalled := rewriteCalled, retrievalQuery := rewrittenQuery
            retrievalPayload := some payload, docsPassedToBuild := some trimmedDocs
            messagesBuilt := some messages, generationCalled := true
            outcome := .httpError ⟨500, m⟩ }
        | .error (.statusErr code text reason) =>
          { rewriteNetworkCalled := rewriteCalled, retrievalQuery := rewrittenQuery
            retrievalPayload := some payload, docsPassedToBuild := some trimmedDocs
            messagesBuilt := some messages, generationCalled := true
            outcome := .httpError ⟨code, pyOrStr text reason⟩ }
        | .error .transportErr =>
          { rewriteNetworkCalled := rewriteCalled, retrievalQuery := rewrittenQuery
            retrievalPayload := some payload, docsPassedToBuild := some trimmedDocs
            messagesBuilt := some messages, generationCalled := true
            outcome := .httpError ⟨502, "Upstream SiliconFlow request failed"⟩ }
        | .ok raw =>
          match extractAnswer raw with
          | .error e =>
            { rewriteNetworkCalled := rewriteCalled, retrievalQuery := rewrittenQuery
              retrievalPayload := some payload, docsPassedToBuild := some trimmedDocs
              messagesBuilt := some messages, generationCalled := true
              outcome := .httpError e }
          | .ok answer =>
            { rewriteNetworkCalled := rewriteCalled, retrievalQuery := rewrittenQuery
              retrievalPayload := some payload, docsPassedToBuild := some trimmedDocs
              messagesBuilt := some messages, generationCalled := true
              outcome := .ok { answer := answer, model := raw.model.getD s.model.model_name
                               usage := extractUsage raw, raw_response := some raw
                               documents := trimmedDocs } }

/-! ### Streaming response (`main.py` 162-204) -/

/-- One outward SSE frame at the event level (`_sse` serialization of the
`meta`/`delta`/`end`/`error` events). -/
inductive SseFrame where
  | meta (model : String) (documents : List RetrievedDocument)
  | delta (text : String)
  | endEvent (answer : String)
  | errorEvent (message : String)
deriving DecidableEq

/-- The `error` frame message for each caught exception kind
(`main.py` 185-199). -/
def streamErrorMessage : UpErr → String
  | .runtimeErr m => m
  | .statusErr _ text reason => "Upstream error: " ++ pyOrStr text reason
  | .transportErr => "Upstream SiliconFlow request failed"

/-- `main._streaming_response`: the upstream stream delivered `chunks` and
then either finished (`failure = none`) or raised (`failure = some e`). -/
def streamingResponse (s : Settings) (documents : List RetrievedDocument)
    (chunks : List String) (failure : Option UpErr) : List SseFrame :=
  SseFrame.meta s.model.model_name documents ::
    (chunks.map SseFrame.delta ++
      [match failure with
       | none => SseFrame.endEvent (pyStrip (String.join chunks))
       | some e => SseFrame.errorEvent (streamErrorMessage e)])

/-- Frame classifiers. -/
def isTerminalFrame : SseFrame → Bool
  | .endEvent _ => true
  | .errorEvent _ => true
  | _ => false

def isMetaFrame : SseFrame → Bool
  | .meta _ _ => true
  | _ => false

def isDeltaFrame : SseFrame → Bool
  | .delta _ => true
  | _ => false

/-- The delta payloads of a frame list, in order. -/
def deltaPayloads (frames : List SseFrame) : List String :=
  frames.filterMap (fun f => match f with | .delta t => some t | _ => none)

/-! ### Concrete fixtures for witnesses and counterexamples -/

/-- Settings with rewriting disabled. -/
def cfgNoRewrite : Settings :=
  { defaultSettings with rewriter := { defaultSettings.rewriter with enabled := false } }

/-- Settings with rewriting disabled and a configured default `top_k` of 1. -/
def cfgTopK1 : Settings :=
  { cfgNoRewrite with retrieval := { cfgNoRewrite.retrieval with top_k := 1 } }

/-- Settings with an empty retrieval URL (RAG_API_URL unset) and rewriting
enabled. -/
def cfgNoRagUrl : Settings :=
  { defaultSettings with retrieval := { defaultSettings.retrieval with url := "" } }

/-- A retrieval item with plain text content. -/
def itemAlpha : Item := { text := some "alpha" }

/-- A second retrieval item with plain text content. -/
def itemBeta : Item := { text := some "beta" }

/-- A retrieval item whose `combined_score` and `score` both parse to 0.0
and whose `rerank_score` is absent. -/
def itemZeroScores : Item := { text := some "x", combined_score := .num 0, score := .num 0 }

/-- A rewrite reply whose content is `<rewrite>B</rewrite>`. -/
def rwReplyB : CompletionData :=
  { choices := [{ message := some { content := some "<rewrite>B</rewrite>" } }] }

/-- A rewrite reply whose content is `<rewrite></rewrite>` (non-empty
content, empty extraction). -/
def rwReplyEmptyMarkers : CompletionData :=
  { choices := [{ message := some { content := some "<rewrite></rewrite>" } }] }

/-- A rewrite reply without any markers. -/
def rwReplyPlain : CompletionData :=
  { choices := [{ message := some { content := some "ok" } }] }

/-- A well-formed generation reply with a single non-empty answer. -/
def genReplyHello : CompletionData :=
  { choices := [{ message := some { content := some "hello" } }] }

/-! # Theorems -/

/-- C9: for every query, when rewriting is disabled in the configuration,
`rewrite_query` returns the query unchanged and performs no network call. -/
theorem c9_rewrite_disabled_identity (s : Settings) (q : String)
    (http : Except UpErr CompletionData) (h : s.rewriter.enabled = false) :
    rewriteQueryRun s q http = (.ok q, false) := by
  simp [rewriteQueryRun, h]

theorem c9_rewrite_disabled_identity_witness :
    cfgNoRewrite.rewriter.enabled = false ∧
      rewriteQueryRun cfgNoRewrite "你好" (.ok rwReplyB) = (.ok "你好", false) :=
  ⟨by decide, c9_rewrite_disabled_identity cfgNoRewrite "你好" (.ok rwReplyB) (by decide)⟩

/-- C7 (amended): when the retrieval endpoint URL is unconfigured, `/chat`
fails with HTTP 500 identifying the missing configuration and the
generation call to the completion service is never made.  (The rewrite
step, when enabled, has already contacted the completion service before the
failure; see the counterexample.) -/
theorem c7_no_rag_url_500 (s : Settings) (req : ChatRequest)
    (rw : Except UpErr CompletionData) (ret : Except UpErr RetrievalData)
    (gen : Except UpErr CompletionData) (h : s.retrieval.url = "") :
    (chatHandler s req rw ret gen).outcome = .httpError ⟨500, ragUrlMissingMsg⟩ ∧
      (chatHandler s req rw ret gen).generationCalled = false := by
  constructor <;> simp [chatHandler, h]

theorem c7_no_rag_url_500_witness :
    cfgNoRagUrl.retrieval.url = "" ∧
      ((chatHandler cfgNoRagUrl { query := "hi" } (.ok rwReplyPlain) (.ok (.arr []))
          (.ok genReplyHello)).outcome = .httpError ⟨500, ragUrlMissingMsg⟩ ∧
        (chatHandler cfgNoRagUrl { query := "hi" } (.ok rwReplyPlain) (.ok (.arr []))
          (.ok genReplyHello)).generationCalled = false) :=
  ⟨by decide, c7_no_rag_url_500 cfgNoRagUrl { query := "hi" } (.ok rwReplyPlain)
    (.ok (.arr [])) (.ok genReplyHello) (by decide)⟩

/-- C7 counterexample: with rewriting enabled (the configured default) and
the retrieval URL unconfigured, the handler still fails with HTTP 500, but
the completion service HAS been called for that request — by the rewrite
step, which runs before the retrieval-URL check. -/
theorem c7_counterexample :
    cfgNoRagUrl.retrieval.url = "" ∧
      (chatHandler cfgNoRagUrl { query := "hi" } (.ok rwReplyPlain) (.ok (.arr []))
        (.ok genReplyHello)).rewriteNetworkCalled = true := by
  constructor
  · decide
  · decide

/-- C6: the effective `rerank_top_k` is the explicit argument when given,
else the configured value when set, else the effective `top_k`; and the
`rerank_top_k` key appears in the outgoing body iff reranking is
effectively enabled.  The hypotheses mirror the schema validation
(`1 ≤ value ≤ 50`, so no value is 0). -/
theorem c6_rerank_top_k_precedence (rc : RetrievalConfig) (q : String)
    (top_k : Option Nat) (use_rerank : Option Bool) (rerank_mode : Option String)
    (rerank_top_k : Option Nat)
    (htk : top_k ≠ some 0) (hrtk : rerank_top_k ≠ some 0)
    (hcfg : rc.rerank_top_k ≠ some 0) (htop : rc.top_k ≠ 0) :
    (retrievePayload rc q top_k use_rerank rerank_mode rerank_top_k).rerank_top_k =
      if use_rerank.getD rc.use_rerank then
        some (rerank_top_k.getD (rc.rerank_top_k.getD (top_k.getD rc.top_k)))
      else none := by
  rcases top_k with _ | a <;> rcases rerank_top_k with _ | b <;>
    rcases h : rc.rerank_top_k with _ | c <;>
    simp_all [retrievePayload, pyOrNat]

theorem c6_rerank_top_k_precedence_witness :
    ((some 3 : Option Nat) ≠ some 0 ∧ (some 7 : Option Nat) ≠ some 0 ∧
        defaultSettings.retrieval.rerank_top_k ≠ some 0 ∧ defaultSettings.retrieval.top_k ≠ 0) ∧
      (retrievePayload defaultSettings.retrieval "q" (some 3) (some true) none
          (some 7)).rerank_top_k =
        if (some true : Option Bool).getD defaultSettings.retrieval.use_rerank then
          some ((some 7 : Option Nat).getD
            (defaultSettings.retrieval.rerank_top_k.getD ((some 3 : Option Nat).getD
              defaultSettings.retrieval.top_k)))
        else none :=
  ⟨⟨by decide, by decide, by decide, by decide⟩,
    c6_rerank_top_k_precedence defaultSettings.retrieval "q" (some 3) (some true) none (some 7)
      (by decide) (by decide) (by decide) (by decide)⟩

/-- C8: for a non-streaming `/chat` request, a well-formed completion reply
with an empty `choices` list, or whose first choice's message content is
missing or empty after trimming, makes the handler fail with HTTP 502. -/
theorem c8_empty_generation_502 (s : Settings) (req : ChatRequest)
    (rw : Except UpErr CompletionData) (rdata : RetrievalData) (raw : CompletionData)
    (hstream : req.stream = false) (hurl : s.retrieval.url ≠ "") (hkey : s.api_key ≠ "")
    (hbad : raw.choices = [] ∨
      pyStrip ((((raw.choices.headD {}).message).getD {}).content.getD "") = "") :
    ∃ d, (chatHandler s req rw (.ok rdata) (.ok raw)).outcome = .httpError ⟨502, d⟩ := by
  rcases hl : raw.choices with _ | ⟨c0, cs⟩
  · exact ⟨"SiliconFlow returned no choices",
      by simp [chatHandler, extractAnswer, hstream, hurl, hkey, hl]⟩
  · have h : pyStrip ((c0.message.getD {}).content.getD "") = "" := by
      rcases hbad with h | h
      · simp [hl] at h
      · simpa [hl, List.headD] using h
    exact ⟨"Choice contained no message content",
      by simp [chatHandler, extractAnswer, hstream, hurl, hkey, hl, h]⟩

theorem c8_empty_generation_502_witness :
    (({ query := "hi" } : ChatRequest).stream = false ∧ cfgNoRewrite.retrieval.url ≠ "" ∧
        cfgNoRewrite.api_key ≠ "" ∧ ({ choices := [] } : CompletionData).choices = []) ∧
      ∃ d, (chatHandler cfgNoRewrite { query := "hi" } (.ok rwReplyPlain) (.ok (.arr []))
          (.ok ({ choices := [] } : CompletionData))).outcome = .httpError ⟨502, d⟩ :=
  ⟨⟨by decide, by decide, by decide, by decide⟩,
    c8_empty_generation_502 cfgNoRewrite { query := "hi" } (.ok rwReplyPlain) (.arr [])
      { choices := [] } (by decide) (by decide) (by decide) (Or.inl (by decide))⟩

/-- Helper: on the successful-retrieval path the handler always trims the
normalized documents with the configured default (`limit = none`), builds
the messages from the request query, and threads the same list into the
response/stream, whatever the generation stage does. -/
theorem chatHandler_retrieval_ok_fields (s : Settings) (req : ChatRequest)
    (rw : Except UpErr CompletionData) (rdata : RetrievalData)
    (gen : Except UpErr CompletionData) (hurl : s.retrieval.url ≠ "") :
    (chatHandler s req rw (.ok rdata) gen).docsPassedToBuild =
        some (trimDocuments s (normalizeResponse rdata) none) ∧
      (chatHandler s req rw (.ok rdata) gen).messagesBuilt =
        some (buildMessages req.query (trimDocuments s (normalizeResponse rdata) none)) ∧
      (∀ resp, (chatHandler s req rw (.ok rdata) gen).outcome = .ok resp →
        resp.documents = trimDocuments s (normalizeResponse rdata) none) ∧
      (∀ msgs ds, (chatHandler s req rw (.ok rdata) gen).outcome = .streaming msgs ds →
        msgs = buildMessages req.query (trimDocuments s (normalizeResponse rdata) none) ∧
          ds = trimDocuments s (normalizeResponse rdata) none) := by
  by_cases hs : req.stream
  · simp [chatHandler, hurl, hs]
  · by_cases hk : s.api_key = ""
    · simp [chatHandler, hurl, hs, hk]
    · rcases gen with e | raw
      · rcases e <;> simp [chatHandler, hurl, hs, hk]
      · rcases hx : extractAnswer raw with e | answer <;>
          simp [chatHandler, hurl, hs, hk, hx]

/-- Helper: the query passed to the retrieval call, in every branch of the
handler. -/
theorem chatHandler_retrievalQuery (s : Settings) (req : ChatRequest)
    (rw : Except UpErr CompletionData) (ret : Except UpErr RetrievalData)
    (gen : Except UpErr CompletionData) :
    (chatHandler s req rw ret gen).retrievalQuery =
      if s.rewriter.enabled then
        match (rewriteQueryRun s req.query rw).1 with
        | .ok r => r
        | .error _ => req.query
      else req.query := by
  by_cases hu : s.retrieval.url = ""
  · simp [chatHandler, hu]
  · rcases ret with e | rdata
    · rcases e <;> simp [chatHandler, hu]
    · by_cases hs : req.stream
      · simp [chatHandler, hu, hs]
      · by_cases hk : s.api_key = ""
        · simp [chatHandler, hu, hs, hk]
        · rcases gen with e | raw
          · rcases e <;> simp [chatHandler, hu, hs, hk]
          · rcases hx : extractAnswer raw with e | answer <;>
              simp [chatHandler, hu, hs, hk, hx]

/-- C1 (amended): after a successful retrieval returning `N` documents, the
handler passes exactly `min(N, configured top_k)` documents — the prefix of
the retrieval order — to `build_messages`, and returns that same list in
the response's `documents` field (and in the stream's document list).  The
request's `top_k` override affects only the retrieval request, not this
post-retrieval trim. -/
theorem c1_trim_is_configured_topk_prefix (s : Settings) (req : ChatRequest)
    (rw : Except UpErr CompletionData) (rdata : RetrievalData)
    (gen : Except UpErr CompletionData) (hurl : s.retrieval.url ≠ "") :
    (chatHandler s req rw (.ok rdata) gen).docsPassedToBuild =
        some ((normalizeResponse rdata).take s.retrieval.top_k) ∧
      ((normalizeResponse rdata).take s.retrieval.top_k).length =
        min (normalizeResponse rdata).length s.retrieval.top_k ∧
      (normalizeResponse rdata).take s.retrieval.top_k <+: normalizeResponse rdata ∧
      (∀ resp, (chatHandler s req rw (.ok rdata) gen).outcome = .ok resp →
        resp.documents = (normalizeResponse rdata).take s.retrieval.top_k) := by
  have h := chatHandler_retrieval_ok_fields s req rw rdata gen hurl
  have htrim : trimDocuments s (normalizeResponse rdata) none =
      (normalizeResponse rdata).take s.retrieval.top_k := by
    simp [trimDocuments, pyOrNat]
  refine ⟨?_, ?_, ?_, ?_⟩
  · rw [h.1, htrim]
  · rw [List.length_take, Nat.min_comm]
  · exact List.take_prefix _ _
  · intro resp hresp
    rw [h.2.2.1 resp hresp, htrim]

theorem c1_trim_is_configured_topk_prefix_witness :
    cfgTopK1.retrieval.url ≠ "" ∧
      ((chatHandler cfgTopK1 { query := "A", top_k := some 2 } (.ok rwReplyPlain)
            (.ok (.arr [itemAlpha, itemBeta])) (.ok genReplyHello)).docsPassedToBuild =
          some ((normalizeResponse (.arr [itemAlpha, itemBeta])).take
            cfgTopK1.retrieval.top_k) ∧
        ((normalizeResponse (.arr [itemAlpha, itemBeta])).take cfgTopK1.retrieval.top_k).length =
          min (normalizeResponse (.arr [itemAlpha, itemBeta])).length cfgTopK1.retrieval.top_k ∧
        (normalizeResponse (.arr [itemAlpha, itemBeta])).take cfgTopK1.retrieval.top_k <+:
          normalizeResponse (.arr [itemAlpha, itemBeta]) ∧
        (∀ resp, (chatHandler cfgTopK1 { query := "A", top_k := some 2 } (.ok rwReplyPlain)
              (.ok (.arr [itemAlpha, itemBeta])) (.ok genReplyHello)).outcome = .ok resp →
          resp.documents = (normalizeResponse (.arr [itemAlpha, itemBeta])).take
            cfgTopK1.retrieval.top_k)) :=
  ⟨by decide, c1_trim_is_configured_topk_prefix cfgTopK1 { query := "A", top_k := some 2 }
    (.ok rwReplyPlain) (.arr [itemAlpha, itemBeta]) (.ok genReplyHello) (by decide)⟩

/-- C1 counterexample: two retrieved documents, request `top_k = 2`,
configured default `top_k = 1`.  The claim's effective `top_k` is the
request override, so it predicts `min(2, 2) = 2` documents passed to
`build_messages`; the handler passes only 1 (the configured default). -/
theorem c1_counterexample :
    (normalizeResponse (.arr [itemAlpha, itemBeta])).length = 2 ∧
      ({ query := "A", top_k := some 2 } : ChatRequest).top_k = some 2 ∧
      ((chatHandler cfgTopK1 { query := "A", top_k := some 2 } (.ok rwReplyPlain)
          (.ok (.arr [itemAlpha, itemBeta])) (.ok genReplyHello)).docsPassedToBuild.map
        List.length) = some 1 ∧
      (1 : Nat) ≠ min 2 2 := by
  refine ⟨by decide, by decide, by decide, by decide⟩

theorem getLast?_cons_append_singleton {α : Type} (a x : α) (l : List α) :
    (a :: (l ++ [x])).getLast? = some x := by
  rw [← List.cons_append, List.getLast?_concat]

/-- C2 (amended): every streamed response is one `meta` frame, then exactly
the delta frames for the delivered chunks in order, then exactly one
terminal frame — `end` on success, `error` on failure, never both and never
neither.  On the success path the `end` frame's `answer` equals the
concatenation of the delta payloads with surrounding whitespace stripped
(the code strips the joined buffer before emitting it). -/
theorem c2_sse_wellformed (s : Settings) (docs : List RetrievedDocument)
    (chunks : List String) (failure : Option UpErr) :
    (streamingResponse s docs chunks failure).head? =
        some (.meta s.model.model_name docs) ∧
      ((streamingResponse s docs chunks failure).drop 1).dropLast =
        chunks.map SseFrame.delta ∧
      (streamingResponse s docs chunks failure).countP isTerminalFrame = 1 ∧
      (streamingResponse s docs chunks failure).countP isMetaFrame = 1 ∧
      deltaPayloads (streamingResponse s docs chunks failure) = chunks ∧
      (failure = none →
        (streamingResponse s docs chunks failure).getLast? =
          some (.endEvent (pyStrip (String.join chunks)))) ∧
      (∀ e, failure = some e →
        (streamingResponse s docs chunks failure).getLast? =
          some (.errorEvent (streamErrorMessage e))) := by
  cases failure <;>
    simp [streamingResponse, deltaPayloads, List.dropLast_concat, List.getLast?_concat,
      List.countP_cons, List.countP_append, List.countP_map, List.filterMap_cons,
      List.filterMap_append, List.filterMap_map, isTerminalFrame, isMetaFrame,
      Function.comp_def, List.countP_eq_zero, getLast?_cons_append_singleton]

theorem c2_sse_wellformed_witness :
    ((none : Option UpErr) = none → (streamingResponse cfgNoRewrite [] ["hi "] none).getLast? =
        some (.endEvent (pyStrip (String.join ["hi "])))) ∧
      (streamingResponse cfgNoRewrite [] ["hi "] none).countP isTerminalFrame = 1 :=
  ⟨(c2_sse_wellformed cfgNoRewrite [] ["hi "] none).2.2.2.2.2.1,
    (c2_sse_wellformed cfgNoRewrite [] ["hi "] none).2.2.1⟩

/-- C2 counterexample: a single delivered chunk `"hi "` on the success path.
The delta payloads concatenate to `"hi "`, but the `end` frame's `answer`
is the stripped string `"hi"`, so the claimed equality between the
concatenation of the delta payloads and the `answer` field fails. -/
theorem c2_counterexample :
    streamingResponse cfgNoRewrite [] ["hi "] none =
        [.meta "Qwen/Qwen2.5-7B-Instruct" [], .delta "hi ", .endEvent "hi"] ∧
      String.join (deltaPayloads (streamingResponse cfgNoRewrite [] ["hi "] none)) = "hi " ∧
      ("hi " : String) ≠ "hi" := by
  refine ⟨by decide, by decide, by decide⟩

/-- C10 (amended): when `combined_score` parses to 0.0, the normalizer
falls through to `rerank_score` and then `score` by truthiness: the
recorded score is `rerank_score`'s parsed value when that is non-zero,
else `score`'s parsed value — which may itself be 0.0 and is then recorded,
not replaced by null. -/
theorem c10_zero_combined_score_fallthrough (item : Item) (doc : RetrievedDocument)
    (hzero : maybeFloat item.combined_score = some 0)
    (hdoc : normalizeItem item = some doc) :
    (∃ r, maybeFloat item.rerank_score = some r ∧ r ≠ 0 ∧ doc.score = some r) ∨
      ((maybeFloat item.rerank_score = none ∨ maybeFloat item.rerank_score = some 0) ∧
        doc.score = maybeFloat item.score) := by
  by_cases hc : pyStrip (pyOrOptStr item.text (pyOrOptStr item.name "")) = ""
  · simp [normalizeItem, hc] at hdoc
  · have hdoc' : doc.score =
        pyOrFloat (maybeFloat item.combined_score)
          (pyOrFloat (maybeFloat item.rerank_score) (maybeFloat item.score)) := by
      simp [normalizeItem, hc] at hdoc
      rw [← hdoc]
    rcases hr : maybeFloat item.rerank_score with _ | r
    · right
      refine ⟨Or.inl rfl, ?_⟩
      rw [hdoc', hzero, hr]
      simp [pyOrFloat]
    · by_cases hr0 : r = 0
      · right
        refine ⟨Or.inr (by simp [hr, hr0]), ?_⟩
        rw [hdoc', hzero, hr, hr0]
        simp [pyOrFloat]
      · left
        refine ⟨r, rfl, hr0, ?_⟩
        rw [hdoc', hzero, hr]
        simp [pyOrFloat, hr0]

theorem c10_zero_combined_score_fallthrough_witness :
    (maybeFloat itemZeroScores.combined_score = some 0 ∧
        normalizeItem itemZeroScores = some
          { id := none, title := none, content := "x", score := some 0, chunk_id := none,
            chunk_type := none, origin_id := none, source := .null, source_text := .null }) ∧
      ((∃ r, maybeFloat itemZeroScores.rerank_score = some r ∧ r ≠ 0 ∧
          ({ id := none, title := none, content := "x", score := some 0, chunk_id := none,
             chunk_type := none, origin_id := none, source := .null,
             source_text := .null } : RetrievedDocument).score = some r) ∨
        ((maybeFloat itemZeroScores.rerank_score = none ∨
            maybeFloat itemZeroScores.rerank_score = some 0) ∧
          ({ id := none, title := none, content := "x", score := some 0, chunk_id := none,
             chunk_type := none, origin_id := none, source := .null,
             source_text := .null } : RetrievedDocument).score =
            maybeFloat itemZeroScores.score)) :=
  ⟨⟨by decide, by decide⟩,
    c10_zero_combined_score_fallthrough itemZeroScores _ (by decide) (by decide)⟩

/-- C10 counterexample: an item whose `combined_score` and `score` both
parse to 0.0 and whose `rerank_score` is absent.  The claim predicts a null
score ("null if none parses to a non-zero float"); the normalizer records
0.0, the value of the final fallback field. -/
theorem c10_counterexample :
    maybeFloat itemZeroScores.combined_score = some 0 ∧
      (normalizeItem itemZeroScores).map RetrievedDocument.score = some (some 0) ∧
      some (some (0 : ℚ)) ≠ some (none : Option ℚ) := by
  refine ⟨by decide, by decide, by decide⟩

theorem stringMk_eq_empty_iff (l : List Char) : (⟨l⟩ : String) = "" ↔ l = [] := by
  rw [show ("" : String) = ⟨[]⟩ from rfl]
  exact ⟨fun h => congrArg String.data h, fun h => by rw [h]⟩

/-- C4 (amended): when rewriting is enabled and `rewrite_query` returns a
query different from the original, the chat messages handed to the
completion service are built from the ORIGINAL request query; the rewritten
query is used only as the retrieval query. -/
theorem c4_messages_use_original_query (s : Settings) (req : ChatRequest)
    (rw : Except UpErr CompletionData) (rdata : RetrievalData)
    (gen : Except UpErr CompletionData) (rq : String)
    (hen : s.rewriter.enabled = true)
    (hok : (rewriteQueryRun s req.query rw).1 = .ok rq)
    (hne : rq ≠ req.query)
    (hurl : s.retrieval.url ≠ "") :
    (chatHandler s req rw (.ok rdata) gen).messagesBuilt =
        some (buildMessages req.query ((normalizeResponse rdata).take s.retrieval.top_k)) ∧
      (chatHandler s req rw (.ok rdata) gen).retrievalQuery = rq := by
  have h := chatHandler_retrieval_ok_fields s req rw rdata gen hurl
  constructor
  · exact h.2.1.trans (by simp [trimDocuments, pyOrNat])
  · rw [chatHandler_retrievalQuery, hen, hok]
    simp

set_option maxRecDepth 8000 in
theorem c4_messages_use_original_query_witness :
    (defaultSettings.rewriter.enabled = true ∧
        (rewriteQueryRun defaultSettings ({ query := "A" } : ChatRequest).query
            (.ok rwReplyB)).1 = .ok "B" ∧
        ("B" : String) ≠ ({ query := "A" } : ChatRequest).query ∧
        defaultSettings.retrieval.url ≠ "") ∧
      ((chatHandler defaultSettings { query := "A" } (.ok rwReplyB) (.ok (.arr []))
            (.ok genReplyHello)).messagesBuilt =
          some (buildMessages ({ query := "A" } : ChatRequest).query
            ((normalizeResponse (.arr [])).take defaultSettings.retrieval.top_k)) ∧
        (chatHandler defaultSettings { query := "A" } (.ok rwReplyB) (.ok (.arr []))
          (.ok genReplyHello)).retrievalQuery = "B") :=
  ⟨⟨by decide, by decide, by decide, by decide⟩,
    c4_messages_use_original_query defaultSettings { query := "A" } (.ok rwReplyB) (.arr [])
      (.ok genReplyHello) "B" (by decide) (by decide) (by decide) (by decide)⟩

set_option maxRecDepth 8000 in
/-- C4 counterexample: query `"A"`, rewriting enabled, upstream rewrite
reply `<rewrite>B</rewrite>`.  The retrieval query is the rewritten `"B"`,
but the messages handed to the completion service are
`build_messages("A", docs)` — interpolating the original query — which
differ from `build_messages("B", docs)`. -/
theorem c4_counterexample :
    (chatHandler defaultSettings { query := "A" } (.ok rwReplyB) (.ok (.arr []))
        (.ok genReplyHello)).retrievalQuery = "B" ∧
      (chatHandler defaultSettings { query := "A" } (.ok rwReplyB) (.ok (.arr []))
        (.ok genReplyHello)).messagesBuilt = some (buildMessages "A" []) ∧
      buildMessages "A" [] ≠ buildMessages "B" [] := by
  refine ⟨by decide, by decide, by decide⟩

/-- C5 (amended): `rewrite_query`'s result is empty exactly when the reply
has a choice whose content is non-empty after trimming but the marker
extraction trims to empty — the emptiness check happens before extraction,
so an empty extraction is returned as-is rather than falling back to the
original query.  (No-choices and empty-content replies do fall back, and
the original query is non-empty by request validation.) -/
theorem c5_rewrite_empty_characterization (s : Settings) (q : String)
    (data : CompletionData)
    (hen : s.rewriter.enabled = true) (hkey : s.api_key ≠ "") (hq : q ≠ "") :
    (rewriteQueryRun s q (.ok data)).1 = .ok "" ↔
      (data.choices ≠ [] ∧
        pyStrip (((data.choices.headD {}).message.getD {}).content.getD "") ≠ "" ∧
        extractRewritten
          (pyStrip (((data.choices.headD {}).message.getD {}).content.getD "")).data = []) := by
  by_cases hch : data.choices = []
  · simp [rewriteQueryRun, hen, hkey, hch, hq]
  · by_cases hco : pyStrip (((data.choices.headD {}).message.getD {}).content.getD "") = ""
    · rw [List.headD_eq_head?_getD] at hco
      simp [rewriteQueryRun, hen, hkey, hch, hco, hq, List.headD_eq_head?_getD]
    · rw [List.headD_eq_head?_getD] at hco
      simp [rewriteQueryRun, hen, hkey, hch, hco, stringMk_eq_empty_iff,
        List.headD_eq_head?_getD]

theorem c5_rewrite_empty_characterization_witness :
    (defaultSettings.rewriter.enabled = true ∧ defaultSettings.api_key ≠ "" ∧
        ("hi" : String) ≠ "") ∧
      ((rewriteQueryRun defaultSettings "hi" (.ok rwReplyEmptyMarkers)).1 = .ok "" ↔
        (rwReplyEmptyMarkers.choices ≠ [] ∧
          pyStrip (((rwReplyEmptyMarkers.choices.headD {}).message.getD {}).content.getD "") ≠ "" ∧
          extractRewritten
            (pyStrip (((rwReplyEmptyMarkers.choices.headD {}).message.getD
              {}).content.getD "")).data = [])) :=
  ⟨⟨by decide, by decide, by decide⟩,
    c5_rewrite_empty_characterization defaultSettings "hi" rwReplyEmptyMarkers
      (by decide) (by decide) (by decide)⟩

/-- C5 counterexample: a rewrite reply whose content is
`<rewrite></rewrite>` — non-empty, so the pre-extraction check passes —
yields the empty string from `rewrite_query` for the non-empty query
`"hi"`, instead of falling back to the original query. -/
theorem c5_counterexample :
    ("hi" : String) ≠ "" ∧
      (rewriteQueryRun defaultSettings "hi" (.ok rwReplyEmptyMarkers)).1 = .ok "" := by
  refine ⟨by decide, by decide⟩

/-! ### Occurrence and index lemmas for the split machinery -/

theorem occursAt_nil {sep : List Char} (i : Nat) (hsep : sep ≠ []) : ¬ occursAt sep [] i := by
  intro h
  rw [occursAt, List.drop_nil] at h
  exact hsep (List.prefix_nil.mp h)

theorem occursAt_cons_succ {sep rest : List Char} {c : Char} {i : Nat} :
    occursAt sep (c :: rest) (i + 1) ↔ occursAt sep rest i := by
  rw [occursAt, occursAt, List.drop_succ_cons]

theorem occursAt_zero_iff {sep s : List Char} : occursAt sep s 0 ↔ sep <+: s := by
  rw [occursAt, List.drop_zero]

theorem occursAt_le {sep s : List Char} {i : Nat} (hsep : sep ≠ []) (h : occursAt sep s i) :
    i + sep.length ≤ s.length := by
  have hlen := h.length_le
  rw [List.length_drop] at hlen
  by_cases hi : i ≤ s.length
  · omega
  · exfalso
    have hdrop : s.drop i = [] := List.drop_eq_nil_of_le (by omega)
    rw [occursAt, hdrop] at h
    exact hsep (List.prefix_nil.mp h)

theorem occursAt_drop {sep s : List Char} {n j : Nat} :
    occursAt sep (s.drop n) j ↔ occursAt sep s (n + j) := by
  rw [occursAt, occursAt, List.drop_drop]

/-- Combined specification of `lastIdx?`: `none` means no occurrence, and
`some j` means a rightmost occurrence at `j`. -/
theorem lastIdx?_spec_all {sep : List Char} (hsep : sep ≠ []) :
    ∀ s : List Char,
      (lastIdx? sep s = none → ∀ i, ¬ occursAt sep s i) ∧
      (∀ j, lastIdx? sep s = some j →
        occursAt sep s j ∧ ∀ i, j < i → ¬ occursAt sep s i)
  | [] => by
    constructor
    · intro _ i
      exact occursAt_nil i hsep
    · intro j hj
      rw [lastIdx?, if_neg (by simpa [List.isEmpty_iff] using hsep)] at hj
      exact absurd hj (by simp)
  | c :: rest => by
    have ih := lastIdx?_spec_all hsep rest
    constructor
    · intro h i
      rw [lastIdx?] at h
      cases hr : lastIdx? sep rest with
      | some j' => rw [hr] at h; exact absurd h (by simp)
      | none =>
        rw [hr] at h
        by_cases hp : sep.isPrefixOf (c :: rest)
        · rw [if_pos hp] at h; exact absurd h (by simp)
        · cases i with
          | zero =>
            rw [occursAt_zero_iff]
            intro hq
            exact hp (List.isPrefixOf_iff_prefix.mpr hq)
          | succ i' =>
            rw [occursAt_cons_succ]
            exact ih.1 hr i'
    · intro j hj
      rw [lastIdx?] at hj
      cases hr : lastIdx? sep rest with
      | some j' =>
        rw [hr] at hj
        have hj' : j = j' + 1 := by
          have := hj
          simp at this
          omega
        subst hj'
        obtain ⟨hocc, hmax⟩ := ih.2 j' hr
        constructor
        · exact occursAt_cons_succ.mpr hocc
        · intro i hi
          cases i with
          | zero => omega
          | succ i' =>
            rw [occursAt_cons_succ]
            exact hmax i' (by omega)
      | none =>
        rw [hr] at hj
        by_cases hp : sep.isPrefixOf (c :: rest)
        · rw [if_pos hp] at hj
          have hj0 : j = 0 := by
            have := hj
            simp at this
            omega
          subst hj0
          constructor
          · rw [occursAt_zero_iff]
            exact List.isPrefixOf_iff_prefix.mp hp
          · intro i hi
            cases i with
            | zero => omega
            | succ i' =>
              rw [occursAt_cons_succ]
              exact ih.1 hr i'
        · rw [if_neg hp] at hj
          exact absurd hj (by simp)

theorem lastIdx?_none_iff {sep : List Char} (hsep : sep ≠ []) (s : List Char) :
    lastIdx? sep s = none ↔ ∀ i, ¬ occursAt sep s i := by
  constructor
  · exact (lastIdx?_spec_all hsep s).1
  · intro hno
    cases hL : lastIdx? sep s with
    | none => rfl
    | some j => exact absurd ((lastIdx?_spec_all hsep s).2 j hL).1 (hno j)

theorem lastIdx?_spec {sep : List Char} (hsep : sep ≠ []) {s : List Char} {j : Nat}
    (h : lastIdx? sep s = some j) :
    occursAt sep s j ∧ ∀ i, j < i → ¬ occursAt sep s i :=
  (lastIdx?_spec_all hsep s).2 j h

theorem lastIdx?_eq_some {sep s : List Char} {m : Nat} (hsep : sep ≠ [])
    (hocc : occursAt sep s m) (hmax : ∀ p, m < p → ¬ occursAt sep s p) :
    lastIdx? sep s = some m := by
  cases hL : lastIdx? sep s with
  | none => exact absurd hocc ((lastIdx?_none_iff hsep s).mp hL m)
  | some j =>
    obtain ⟨hoj, hmj⟩ := lastIdx?_spec hsep hL
    rcases Nat.lt_trichotomy j m with h | h | h
    · exact absurd hocc (hmj m h)
    · rw [h]
    · exact absurd hoj (hmax j h)

/-- Combined specification of `firstIdx?`: `none` means no occurrence, and
`some i` means a leftmost occurrence at `i`. -/
theorem firstIdx?_spec_all {sep : List Char} (hsep : sep ≠ []) :
    ∀ s : List Char,
      (firstIdx? sep s = none → ∀ i, ¬ occursAt sep s i) ∧
      (∀ i, firstIdx? sep s = some i →
        occursAt sep s i ∧ ∀ p, p < i → ¬ occursAt sep s p)
  | [] => by
    constructor
    · intro _ i
      exact occursAt_nil i hsep
    · intro i hi
      rw [firstIdx?, if_neg (by simpa [List.isEmpty_iff] using hsep)] at hi
      exact absurd hi (by simp)
  | c :: rest => by
    have ih := firstIdx?_spec_all hsep rest
    constructor
    · intro h i
      rw [firstIdx?] at h
      by_cases hp : sep.isPrefixOf (c :: rest)
      · rw [if_pos hp] at h; exact absurd h (by simp)
      · rw [if_neg hp] at h
        cases i with
        | zero =>
          rw [occursAt_zero_iff]
          intro hq
          exact hp (List.isPrefixOf_iff_prefix.mpr hq)
        | succ i' =>
          rw [occursAt_cons_succ]
          cases hr : firstIdx? sep rest with
          | none => exact ih.1 hr i'
          | some k => rw [hr] at h; exact absurd h (by simp)
    · intro i hi
      rw [firstIdx?] at hi
      by_cases hp : sep.isPrefixOf (c :: rest)
      · rw [if_pos hp] at hi
        have hi0 : i = 0 := by
          have := hi
          simp at this
          omega
        subst hi0
        refine ⟨occursAt_zero_iff.mpr (List.isPrefixOf_iff_prefix.mp hp), ?_⟩
        intro p hp'
        omega
      · rw [if_neg hp] at hi
        cases hr : firstIdx? sep rest with
        | none => rw [hr] at hi; exact absurd hi (by simp)
        | some k =>
          rw [hr] at hi
          have hik : i = k + 1 := by
            have := hi
            simp at this
            omega
          subst hik
          obtain ⟨hocc, hmin⟩ := ih.2 k hr
          refine ⟨occursAt_cons_succ.mpr hocc, ?_⟩
          intro p hpk
          cases p with
          | zero =>
            rw [occursAt_zero_iff]
            intro hq
            exact hp (List.isPrefixOf_iff_prefix.mpr hq)
          | succ p' =>
            rw [occursAt_cons_succ]
            exact hmin p' (by omega)

theorem firstIdx?_none_iff {sep : List Char} (hsep : sep ≠ []) (s : List Char) :
    firstIdx? sep s = none ↔ ∀ i, ¬ occursAt sep s i := by
  constructor
  · exact (firstIdx?_spec_all hsep s).1
  · intro hno
    cases hF : firstIdx? sep s with
    | none => rfl
    | some i => exact absurd ((firstIdx?_spec_all hsep s).2 i hF).1 (hno i)

theorem firstIdx?_spec {sep : List Char} (hsep : sep ≠ []) {s : List Char} {i : Nat}
    (h : firstIdx? sep s = some i) :
    occursAt sep s i ∧ ∀ p, p < i → ¬ occursAt sep s p :=
  (firstIdx?_spec_all hsep s).2 i h

/-- Two overlapping occurrences of `sep` exhibit a border of `sep`. -/
theorem border_of_overlap {sep s : List Char} {i p : Nat}
    (hi : occursAt sep s i) (hp : occursAt sep s p) (hip : i < p)
    (hlt : p < i + sep.length) :
    sep.take (sep.length - (p - i)) = sep.drop (p - i) := by
  obtain ⟨t, ht⟩ := hi
  obtain ⟨u, hu⟩ := hp
  have hdrop : s.drop p = sep.drop (p - i) ++ t := by
    have h1 : s.drop p = (s.drop i).drop (p - i) := by
      rw [List.drop_drop]
      congr 1
      omega
    rw [h1, ← ht, List.drop_append_of_le_length (by omega)]
  have key : sep ++ u = sep.drop (p - i) ++ t := by rw [hu, hdrop]
  have h2 : (sep ++ u).take (sep.length - (p - i)) = sep.take (sep.length - (p - i)) :=
    List.take_append_of_le_length (by omega)
  have h3 : (sep.drop (p - i) ++ t).take (sep.length - (p - i)) = sep.drop (p - i) := by
    have hlen : (sep.drop (p - i)).length = sep.length - (p - i) := by
      rw [List.length_drop]
    rw [← hlen, List.take_left]
  rw [← h2, key, h3]

/-! ### Structure of the split scan -/

theorem pySplitOnAux_ne_nil (sep : List Char) :
    ∀ (fuel : Nat) (s acc : List Char), pySplitOnAux sep fuel s acc ≠ []
  | 0, s, acc => by simp [pySplitOnAux]
  | fuel + 1, [], acc => by simp [pySplitOnAux]
  | fuel + 1, c :: rest, acc => by
    unfold pySplitOnAux
    by_cases hp : sep.isPrefixOf (c :: rest)
    · simp [hp]
    · simpa [hp] using pySplitOnAux_ne_nil sep fuel rest (c :: acc)

theorem pySplitOnAux_fuel (sep : List Char) :
    ∀ (f1 f2 : Nat) (s acc : List Char), s.length ≤ f1 → s.length ≤ f2 →
      pySplitOnAux sep f1 s acc = pySplitOnAux sep f2 s acc
  | 0, f2, s, acc => by
    intro h1 h2
    have hs : s = [] := List.eq_nil_of_length_eq_zero (by omega)
    subst hs
    cases f2 <;> simp [pySplitOnAux]
  | f1 + 1, f2, s, acc => by
    intro h1 h2
    cases s with
    | nil => cases f2 <;> simp [pySplitOnAux]
    | cons c rest =>
      cases f2 with
      | zero => simp at h2
      | succ f2' =>
        unfold pySplitOnAux
        by_cases hp : sep.isPrefixOf (c :: rest)
        · rw [if_pos hp, if_pos hp]
          have hd : (List.drop (sep.length - 1) rest).length ≤ rest.length := by
            rw [List.length_drop]
            omega
          rw [pySplitOnAux_fuel sep f1 f2' (List.drop (sep.length - 1) rest) []
            (by simp at h1; omega) (by simp at h2; omega)]
        · rw [if_neg hp, if_neg hp]
          exact pySplitOnAux_fuel sep f1 f2' rest (c :: acc)
            (by simp at h1; omega) (by simp at h2; omega)

theorem pySplitOnAux_no_occur {sep : List Char} (hsep : sep ≠ []) :
    ∀ (fuel : Nat) (s acc : List Char), (∀ i, ¬ occursAt sep s i) → s.length ≤ fuel →
      pySplitOnAux sep fuel s acc = [acc.reverse ++ s]
  | 0, s, acc => by
    intro _ _
    simp [pySplitOnAux]
  | fuel + 1, [], acc => by
    intro _ _
    simp [pySplitOnAux]
  | fuel + 1, c :: rest, acc => by
    intro hno hf
    have hp : ¬ sep.isPrefixOf (c :: rest) := by
      intro hp
      exact hno 0 (occursAt_zero_iff.mpr (List.isPrefixOf_iff_prefix.mp hp))
    unfold pySplitOnAux
    rw [if_neg hp]
    have hrest : ∀ i, ¬ occursAt sep rest i := fun i hi =>
      hno (i + 1) (occursAt_cons_succ.mpr hi)
    rw [pySplitOnAux_no_occur hsep fuel rest (c :: acc) hrest (by simp at hf; omega)]
    simp

theorem pySplitOnAux_first_occur {sep : List Char} (hsep : sep ≠ []) :
    ∀ (fuel : Nat) (s acc : List Char) (i : Nat),
      occursAt sep s i → (∀ p, p < i → ¬ occursAt sep s p) → s.length ≤ fuel →
      pySplitOnAux sep fuel s acc =
        (acc.reverse ++ s.take i) :: pySplitOn sep (s.drop (i + sep.length))
  | 0, s, acc, i => by
    intro hocc _ hf
    have hs : s = [] := List.eq_nil_of_length_eq_zero (by omega)
    subst hs
    exact absurd hocc (occursAt_nil i hsep)
  | fuel + 1, [], acc, i => by
    intro hocc _ _
    exact absurd hocc (occursAt_nil i hsep)
  | fuel + 1, c :: rest, acc, i => by
    intro hocc hmin hf
    cases i with
    | zero =>
      have hp : sep.isPrefixOf (c :: rest) :=
        List.isPrefixOf_iff_prefix.mpr (occursAt_zero_iff.mp hocc)
      unfold pySplitOnAux
      rw [if_pos hp]
      obtain ⟨d, sep', hsep'⟩ : ∃ d sep', sep = d :: sep' := by
        cases sep with
        | nil => exact absurd rfl hsep
        | cons d sep' => exact ⟨d, sep', rfl⟩
      have hdrop : (c :: rest).drop (0 + sep.length) = List.drop (sep.length - 1) rest := by
        subst hsep'
        simp [List.drop_succ_cons]
      rw [hdrop]
      have hlen : (List.drop (sep.length - 1) rest).length ≤ fuel := by
        rw [List.length_drop]
        simp at hf
        omega
      rw [pySplitOn, pySplitOnAux_fuel sep fuel (List.drop (sep.length - 1) rest).length
        (List.drop (sep.length - 1) rest) [] hlen le_rfl]
      simp
    | succ i' =>
      have hp : ¬ sep.isPrefixOf (c :: rest) := by
        intro hp
        exact hmin 0 (Nat.succ_pos i') (occursAt_zero_iff.mpr (List.isPrefixOf_iff_prefix.mp hp))
      unfold pySplitOnAux
      rw [if_neg hp]
      have hocc' : occursAt sep rest i' := occursAt_cons_succ.mp hocc
      have hmin' : ∀ p, p < i' → ¬ occursAt sep rest p := fun p hpi hop =>
        hmin (p + 1) (by omega) (occursAt_cons_succ.mpr hop)
      rw [pySplitOnAux_first_occur hsep fuel rest (c :: acc) i' hocc' hmin'
        (by simp at hf; omega)]
      have hdrop : rest.drop (i' + sep.length) = (c :: rest).drop (i' + 1 + sep.length) := by
        rw [show i' + 1 + sep.length = (i' + sep.length) + 1 from by omega, List.drop_succ_cons]
      rw [hdrop]
      simp [List.take_succ_cons]

/-- The rightmost occurrence, viewed from the first occurrence: dropping
the first occurrence (for a borderless separator) does not change the text
after the rightmost occurrence. -/
theorem afterLast_drop_first {sep s : List Char} {i : Nat} (hsep : sep ≠ [])
    (hb : Borderless sep) (hocc : occursAt sep s i)
    (hmin : ∀ p, p < i → ¬ occursAt sep s p) :
    afterLastMarker sep s = afterLastMarker sep (s.drop (i + sep.length)) := by
  cases hL : lastIdx? sep (s.drop (i + sep.length)) with
  | none =>
    have hnone := (lastIdx?_none_iff hsep _).mp hL
    have hlast : lastIdx? sep s = some i := by
      apply lastIdx?_eq_some hsep hocc
      intro p hpi hop
      by_cases hple : p < i + sep.length
      · have hbord := border_of_overlap hocc hop hpi hple
        exact hb (p - i) (by omega) (by omega) hbord
      · have hocc' : occursAt sep (s.drop (i + sep.length)) (p - (i + sep.length)) := by
          rw [occursAt_drop, show i + sep.length + (p - (i + sep.length)) = p from by omega]
          exact hop
        exact hnone _ hocc'
    rw [afterLastMarker, hlast, afterLastMarker, hL]
  | some j' =>
    obtain ⟨hoj, hmj⟩ := lastIdx?_spec hsep hL
    have hocc' : occursAt sep s (i + sep.length + j') := occursAt_drop.mp hoj
    have hlast : lastIdx? sep s = some (i + sep.length + j') := by
      apply lastIdx?_eq_some hsep hocc'
      intro p hpgt hop
      have hop' : occursAt sep (s.drop (i + sep.length)) (p - (i + sep.length)) := by
        rw [occursAt_drop, show i + sep.length + (p - (i + sep.length)) = p from by omega]
        exact hop
      exact hmj _ (by omega) hop'
    simp only [afterLastMarker, hlast, hL]
    rw [List.drop_drop]
    congr 1
    omega

theorem getLastD_of_ne_nil {α : Type} {l : List α} (h : l ≠ []) (d₁ d₂ : α) :
    l.getLastD d₁ = l.getLastD d₂ := by
  cases l with
  | nil => exact absurd rfl h
  | cons a t => rw [List.getLastD_cons, List.getLastD_cons]

/-- Key lemma: the last piece of the left-to-right Python split is the
suffix after the rightmost occurrence of a borderless separator. -/
theorem getLastD_pySplitOn_fuel {sep : List Char} (hsep : sep ≠ []) (hb : Borderless sep) :
    ∀ (n : Nat) (s : List Char), s.length ≤ n →
      (pySplitOn sep s).getLastD [] = afterLastMarker sep s
  | 0, s => by
    intro hf
    have hs : s = [] := List.eq_nil_of_length_eq_zero (by omega)
    subst hs
    rw [afterLastMarker]
    rw [show lastIdx? sep [] = none from by
      rw [lastIdx?, if_neg (by simpa [List.isEmpty_iff] using hsep)]]
    simp [pySplitOn, pySplitOnAux]
  | n + 1, s => by
    intro hf
    cases hfi : firstIdx? sep s with
    | none =>
      have hno := (firstIdx?_none_iff hsep s).mp hfi
      have h1 : pySplitOn sep s = [s] := by
        rw [pySplitOn, pySplitOnAux_no_occur hsep s.length s [] hno le_rfl]
        simp
      have h2 : lastIdx? sep s = none := (lastIdx?_none_iff hsep s).mpr hno
      rw [h1, afterLastMarker, h2]
      rfl
    | some i =>
      obtain ⟨hocc, hmin⟩ := firstIdx?_spec hsep hfi
      have h1 : pySplitOn sep s =
          s.take i :: pySplitOn sep (s.drop (i + sep.length)) := by
        rw [pySplitOn, pySplitOnAux_first_occur hsep s.length s [] i hocc hmin le_rfl]
        simp
      have hlen : (s.drop (i + sep.length)).length ≤ n := by
        have hle := occursAt_le hsep hocc
        rw [List.length_drop]
        have hpos : 0 < sep.length := List.length_pos.mpr hsep
        omega
      have hne : pySplitOn sep (s.drop (i + sep.length)) ≠ [] :=
        pySplitOnAux_ne_nil sep _ _ _
      rw [h1, List.getLastD_cons, getLastD_of_ne_nil hne (s.take i) [],
        getLastD_pySplitOn_fuel hsep hb n (s.drop (i + sep.length)) hlen,
        ← afterLast_drop_first hsep hb hocc hmin]

theorem getLastD_pySplitOn {sep : List Char} (hsep : sep ≠ []) (hb : Borderless sep)
    (s : List Char) : (pySplitOn sep s).getLastD [] = afterLastMarker sep s :=
  getLastD_pySplitOn_fuel hsep hb s.length s le_rfl

theorem startMarker_ne_nil : startMarker ≠ [] := by decide

theorem startMarker_borderless : Borderless startMarker := by decide

/-- C3 (amended): the extraction takes the substring after the LAST
`<rewrite>` marker and before the LAST following `</rewrite>` marker (the
whole remainder when absent), then trims whitespace — `rsplit("</rewrite>",
1)` cuts at the last end marker, not the first, so text between two end
markers is kept (see the counterexample). -/
theorem c3_extraction_last_markers (content : List Char) :
    extractRewritten content =
      pyStripL (pyRsplitOneHead endMarker (afterLastMarker startMarker content)) := by
  rw [extractRewritten, getLastD_pySplitOn startMarker_ne_nil startMarker_borderless]

/-- C3 counterexample: content `<rewrite>A</rewrite>B</rewrite>` contains
`<rewrite>X</rewrite>` with `X = "A"`, so the claim predicts `"A"` (the
text before the FIRST following end marker); the code returns
`"A</rewrite>B"` (the text before the LAST end marker). -/
theorem c3_counterexample :
    extractRewritten "<rewrite>A</rewrite>B</rewrite>".data = "A</rewrite>B".data ∧
      "A</rewrite>B".data ≠ "A".data := by
  refine ⟨by decide, by decide⟩
